import Mathlib

/-!
Shallow embedding of the Document/Node wrapper layer of a Rust binding to a
foreign XML tree library (src/src/tree/document.rs, src/src/tree/node.rs).

Modelling conventions:
* Native pointers (xmlDocPtr, xmlNodePtr, buffers) are Nat, with 0 playing
  the role of the null pointer.
* The foreign library itself is outside the repository; calls into it are
  recorded as trace events (FFICall), and values the foreign side returns
  (parser results, node type tags, results of xmlAddChild) enter the model
  as explicit parameters.
* Rust Rc allocations are modelled by a heap from allocation ids to cells:
  Node (the public wrapper) is an allocation id, _Node (the cell behind
  Rc<RefCell<_Node>>) is an NCell.  Reference identity of two Node values is
  equality of their allocation ids; Node::clone shares the id.
* HashMap<xmlNodePtr, Node> is an association list from pointer to the
  stored wrapper id, with insert-overwrites and remove semantics.
-/

/-- Types of xml nodes, from src/src/tree/node.rs lines 49-71
(enum NodeType, 21 variants in source order). -/
inductive NodeType where
  | ElementNode
  | AttributeNode
  | TextNode
  | CDataSectionNode
  | EntityRefNode
  | EntityNode
  | PiNode
  | CommentNode
  | DocumentNode
  | DocumentTypeNode
  | DocumentFragNode
  | NotationNode
  | HtmlDocumentNode
  | DTDNode
  | ElementDecl
  | AttributeDecl
  | EntityDecl
  | NamespaceDecl
  | XIncludeStart
  | XIncludeEnd
  | DOCBDocumentNode
deriving DecidableEq, Repr

/-- NodeType::from_c_int, src/src/tree/node.rs lines 76-101: converts an
integer from libxml's enum to an instance of NodeType; the c_uint argument
is modelled as Nat. -/
def NodeType.from_c_int (i : Nat) : Option NodeType :=
  match i with
  | 1 => some NodeType.ElementNode
  | 2 => some NodeType.AttributeNode
  | 3 => some NodeType.TextNode
  | 4 => some NodeType.CDataSectionNode
  | 5 => some NodeType.EntityRefNode
  | 6 => some NodeType.EntityNode
  | 7 => some NodeType.PiNode
  | 8 => some NodeType.CommentNode
  | 9 => some NodeType.DocumentNode
  | 10 => some NodeType.DocumentTypeNode
  | 11 => some NodeType.DocumentFragNode
  | 12 => some NodeType.NotationNode
  | 13 => some NodeType.HtmlDocumentNode
  | 14 => some NodeType.DTDNode
  | 15 => some NodeType.ElementDecl
  | 16 => some NodeType.AttributeDecl
  | 17 => some NodeType.EntityDecl
  | 18 => some NodeType.NamespaceDecl
  | 19 => some NodeType.XIncludeStart
  | 20 => some NodeType.XIncludeEnd
  | 21 => some NodeType.DOCBDocumentNode
  | _ => none

/-- Node::get_type, src/src/tree/node.rs lines 212-214: reads the foreign
type tag (*node_ptr).type_ and decodes it.  The tag read from foreign
memory is the explicit argument. -/
def Node.get_type (tag : Nat) : Option NodeType :=
  NodeType.from_c_int tag

/-- The 21 NodeType variants in the order named by the spec (element,
attribute, text, CDATA, entity-ref, entity, processing-instruction,
comment, document, document-type, document-fragment, notation,
HTML-document, DTD, element-decl, attribute-decl, entity-decl,
namespace-decl, XInclude-start, XInclude-end, DocBook-document). -/
def nodeTypeOrder : List NodeType :=
  [NodeType.ElementNode, NodeType.AttributeNode, NodeType.TextNode,
   NodeType.CDataSectionNode, NodeType.EntityRefNode, NodeType.EntityNode,
   NodeType.PiNode, NodeType.CommentNode, NodeType.DocumentNode,
   NodeType.DocumentTypeNode, NodeType.DocumentFragNode,
   NodeType.NotationNode, NodeType.HtmlDocumentNode, NodeType.DTDNode,
   NodeType.ElementDecl, NodeType.AttributeDecl, NodeType.EntityDecl,
   NodeType.NamespaceDecl, NodeType.XIncludeStart, NodeType.XIncludeEnd,
   NodeType.DOCBDocumentNode]

/-- Trace events for calls from the wrapper layer into the foreign
library.  Pointer arguments are Nat with 0 as null. -/
inductive FFICall where
  | xmlFreeDoc (p : Nat)
  | xmlFreeNode (p : Nat)
  | xmlUnlinkNode (p : Nat)
  | xmlAddChild (parent child : Nat)
  | xmlResetLastError
  | xmlSetStructuredErrorFunc (installed : Bool)
  | foreignParse
  | xmlDocDumpMemoryEnc (buf : Nat)
  | xmlDocDumpFormatMemoryEnc (buf : Nat)
  | xmlBufferCreate (buf : Nat)
  | xmlNodeDump (buf : Nat)
  | xmlBufferContent (buf : Nat)
  | xmlBufferFree (buf : Nat)
deriving DecidableEq, Repr

/-- Association-list lookup: first binding of the key, if any.  Models
HashMap reads keyed by raw pointers / allocation ids. -/
def lookupA {α : Type} : List (Nat × α) → Nat → Option α
  | [], _ => none
  | (k, v) :: t, k0 => if k = k0 then some v else lookupA t k0

/-- Association-list removal of a key (HashMap::remove). -/
def removeA {α : Type} (l : List (Nat × α)) (k : Nat) : List (Nat × α) :=
  l.filter fun p => p.fst != k

/-- Association-list insert with overwrite (HashMap::insert). -/
def insertA {α : Type} (l : List (Nat × α)) (k : Nat) (v : α) : List (Nat × α) :=
  (k, v) :: removeA l k

/-- The struct _Node behind Rc<RefCell<_Node>>, src/src/tree/node.rs
lines 37-41, minus the document back-reference (the operations below act
on the owning document's state directly). -/
structure NCell where
  node_ptr : Nat
  unlinked : Bool
deriving DecidableEq, Repr

/-- Combined state of the Rc heap of _Node cells and the owning
_Document's bookkeeping.  heap maps allocation ids to cells (a public
Node value is an allocation id; Node::clone shares it); nodes is the
document's HashMap<xmlNodePtr, Node> storing the wrapper id registered
for each pointer; calls accumulates foreign calls made so far. -/
structure St where
  heap : List (Nat × NCell)
  nextId : Nat
  nodes : List (Nat × Nat)
  calls : List FFICall
deriving DecidableEq, Repr

/-- Node::wrap, src/src/tree/node.rs lines 166-169: allocates a fresh
Rc cell with unlinked = false; does not register in the document map. -/
def Node.wrap (st : St) (p : Nat) : Nat × St :=
  (st.nextId,
   { st with heap := insertA st.heap st.nextId ⟨p, false⟩,
             nextId := st.nextId + 1 })

/-- Node::node_ptr, src/src/tree/node.rs lines 158-160: reads the cell's
pointer through the Rc (0 if the id is dangling, which never happens for
a real wrapper). -/
def Node.node_ptr (st : St) (i : Nat) : Nat :=
  match lookupA st.heap i with
  | some c => c.node_ptr
  | none => 0

/-- PartialEq for Node, src/src/tree/node.rs lines 148-153: two nodes are
equal iff they point to the same xmlNode. -/
def Node.beq (st : St) (a b : Nat) : Bool :=
  Node.node_ptr st a == Node.node_ptr st b

/-- Node::ptr_as_option, src/src/tree/node.rs lines 434-443; also the
body of Document::ptr_as_option (document.rs lines 87-95) and of
Document::get_root_element's non-null branch (document.rs lines 107-118):
null gives None; otherwise wrap a brand-new Node and insert it into the
document map under the pointer, returning the new wrapper. -/
def Node.ptr_as_option (st : St) (p : Nat) : St × Option Nat :=
  if p = 0 then (st, none)
  else
    let r := Node.wrap st p
    ({ r.snd with nodes := insertA r.snd.nodes p r.fst }, some r.fst)

/-- Node::ptr_as_result, src/src/tree/node.rs lines 445-454: same as
ptr_as_option but Err on null. -/
def Node.ptr_as_result (st : St) (p : Nat) : St × Except Unit Nat :=
  if p = 0 then (st, Except.error ())
  else
    let r := Node.wrap st p
    ({ r.snd with nodes := insertA r.snd.nodes p r.fst }, Except.ok r.fst)

/-- Node::add_child, src/src/tree/node.rs lines 243-246: calls the
foreign xmlAddChild(self.node_ptr, child.node_ptr) and feeds the returned
pointer to ptr_as_result.  ret is the pointer the foreign call returns
(0 = null = failure). -/
def Node.add_child (st : St) (self child : Nat) (ret : Nat) :
    St × Except Unit Nat :=
  let st1 := { st with
    calls := st.calls ++
      [FFICall.xmlAddChild (Node.node_ptr st self) (Node.node_ptr st child)] }
  Node.ptr_as_result st1 ret

/-- Drop for _Node, src/src/tree/node.rs lines 104-111: the destructor
calls xmlFreeNode exactly when the unlinked flag is set. -/
def Node.drop_calls (cell : NCell) : List FFICall :=
  if cell.unlinked then [FFICall.xmlFreeNode cell.node_ptr] else []

/-- Node::unlink, src/src/tree/node.rs lines 263-273.  ty is the result
of self.get_type() (read from the foreign node's type tag).  When the
type is neither DocumentNode nor DocumentFragNode and the wrapper is not
already unlinked: set the flag, remove the pointer from the document map,
and call the foreign xmlUnlinkNode; otherwise do nothing. -/
def Node.unlink (st : St) (i : Nat) (ty : Option NodeType) : St :=
  match lookupA st.heap i with
  | none => st
  | some cell =>
    if ty ≠ some NodeType.DocumentNode ∧ ty ≠ some NodeType.DocumentFragNode ∧
        cell.unlinked = false then
      { st with
        heap := insertA st.heap i { cell with unlinked := true },
        nodes := removeA st.nodes cell.node_ptr,
        calls := st.calls ++ [FFICall.xmlUnlinkNode cell.node_ptr] }
    else st

/-- Modelled from the spec: the ErrorRecord / XmlError diagnostic shape
({ message, severity, line, column }); the defining module tree/mod.rs is
not under src/, only its uses are.  The parse claims treat these records
as opaque payloads, so only the carrier matters. -/
structure XmlError where
  message : String
  severity : Nat
  line : Nat
  column : Nat
deriving DecidableEq, Repr

/-- The Document value built by the parse path: _Document fields
doc_ptr, errors, nodes (src/src/tree/document.rs lines 36-41). -/
structure XDocument where
  doc_ptr : Nat
  errors : List XmlError
  nodes : List (Nat × Nat)
deriving DecidableEq, Repr

/-- Document::handle_result_ptrs, src/src/tree/document.rs lines 199-216:
on a null parser result it calls xmlFreeDoc on that (null) pointer and
returns Err with the collected error list; on a non-null result it builds
a Document with that pointer, the collected errors, and an empty nodes
map.  Returns the foreign calls this function itself makes, paired with
the Result. -/
def Document.handle_result_ptrs (doc_ptr : Nat) (errors : List XmlError) :
    List FFICall × Except (List XmlError) XDocument :=
  if doc_ptr = 0 then
    ([FFICall.xmlFreeDoc doc_ptr], Except.error errors)
  else
    ([], Except.ok { doc_ptr := doc_ptr, errors := errors, nodes := [] })

/-- Document::parse_handler, src/src/tree/document.rs lines 187-197:
resets the last error, installs the structured-error collection callback,
invokes the parse closure, uninstalls the callback, then delegates to
handle_result_ptrs.  parsed is the xmlDocPtr the foreign parser returned
(0 = null); collected is the ordered list of diagnostics the callback
accumulated during the parse. -/
def Document.parse_handler (parsed : Nat) (collected : List XmlError) :
    List FFICall × Except (List XmlError) XDocument :=
  let r := Document.handle_result_ptrs parsed collected
  ([FFICall.xmlResetLastError, FFICall.xmlSetStructuredErrorFunc true,
    FFICall.foreignParse, FFICall.xmlSetStructuredErrorFunc false] ++ r.fst,
   r.snd)

/-- CString::new on the input bytes: fails with NulError exactly when the
byte string contains an interior 0 byte. -/
def cstring_new (bytes : List Nat) : Option (List Nat) :=
  if 0 ∈ bytes then none else some bytes

/-- Outcome of a call that may panic: Rust .unwrap() on an Err aborts the
thread instead of returning. -/
inductive ParseOutcome where
  | panicked
  | completed (r : Except (List XmlError) XDocument)
deriving Repr

/-- Document::parse_string, src/src/tree/document.rs lines 172-178:
converts the input to a CString with .unwrap() — a panic when the input
holds an interior 0 byte — before any foreign call, then runs the parse
through parse_handler.  bytes are the bytes of xml_str; parsed /
collected are the foreign parser's result and diagnostics as in
parse_handler (url and encoding, also CString-converted, are assumed
0-free here). -/
def Document.parse_string (bytes : List Nat) (parsed : Nat)
    (collected : List XmlError) : List FFICall × ParseOutcome :=
  match cstring_new bytes with
  | none => ([], ParseOutcome.panicked)
  | some _ =>
    let r := Document.parse_handler parsed collected
    (r.fst, ParseOutcome.completed r.snd)

/-- Document::to_string, src/src/tree/document.rs lines 128-147: the
foreign dump call allocates the receiver buffer (buf); the function then
reads it, calls mem::forget on the pointer, and returns — no foreign call
ever frees the receiver.  The trace of foreign calls is returned. -/
def Document.to_string_calls (format : Bool) (buf : Nat) : List FFICall :=
  if format then [FFICall.xmlDocDumpFormatMemoryEnc buf]
  else [FFICall.xmlDocDumpMemoryEnc buf]

/-- Node::to_string, src/src/tree/node.rs lines 407-432: creates a
scratch buffer, dumps the node into it, reads the content, frees the
buffer, and returns the string. -/
def Node.to_string_calls (_format : Bool) (buf : Nat) : List FFICall :=
  [FFICall.xmlBufferCreate buf, FFICall.xmlNodeDump buf,
   FFICall.xmlBufferContent buf, FFICall.xmlBufferFree buf]

/-- Whether a foreign call allocates scratch buffer b (xmlBufferCreate,
or the document dump primitives, which allocate into the receiver). -/
def allocsBuf : FFICall → Nat → Bool
  | FFICall.xmlBufferCreate p, b => p == b
  | FFICall.xmlDocDumpMemoryEnc p, b => p == b
  | FFICall.xmlDocDumpFormatMemoryEnc p, b => p == b
  | _, _ => false

/-- Whether a foreign call releases scratch buffer b. -/
def freesBuf : FFICall → Nat → Bool
  | FFICall.xmlBufferFree p, b => p == b
  | _, _ => false

/-! Helper lemmas about the association-list map operations. -/

theorem lookupA_insertA_self {α : Type} (l : List (Nat × α)) (k : Nat) (v : α) :
    lookupA (insertA l k v) k = some v := by
  simp [insertA, lookupA]

theorem lookupA_removeA {α : Type} (l : List (Nat × α)) (k k0 : Nat) :
    lookupA (removeA l k) k0 = if k = k0 then none else lookupA l k0 := by
  induction l with
  | nil => simp [removeA, lookupA]
  | cons hd t ih =>
    obtain ⟨k1, v1⟩ := hd
    by_cases h1 : k1 = k
    · subst h1
      by_cases h2 : k1 = k0
      · subst h2
        simpa [removeA, lookupA] using ih
      · simpa [removeA, lookupA, h2] using ih
    · by_cases h2 : k1 = k0
      · subst h2
        have hne : ¬ k = k1 := fun h => h1 h.symm
        simp [removeA, lookupA, bne, h1, hne]
      · simpa [removeA, lookupA, h1, h2] using ih

theorem lookupA_insertA_ne {α : Type} (l : List (Nat × α)) (k k0 : Nat) (v : α)
    (h : k ≠ k0) : lookupA (insertA l k v) k0 = lookupA l k0 := by
  simp [insertA, lookupA, h, lookupA_removeA]

/-- C8: getType decoding — for every foreign type tag, get_type returns
Some of exactly the tag-th of the 21 fixed NodeType variants (in the
spec's order) when the tag is one of the integers 1 through 21, and
returns None for every other tag value. -/
theorem c8_get_type_decoding (t : Nat) :
    Node.get_type t =
      if 1 ≤ t ∧ t ≤ 21 then nodeTypeOrder[t-1]? else none := by
  rcases Nat.lt_or_ge t 22 with h | h
  · interval_cases t <;> rfl
  · obtain ⟨n, rfl⟩ := Nat.exists_eq_add_of_le h
    have h1 : ¬ (1 ≤ 22 + n ∧ 22 + n ≤ 21) := by omega
    rw [if_neg h1]
    show NodeType.from_c_int (22 + n) = none
    rw [Nat.add_comm]
    rfl

/-- C10: Node equality is native-handle equality — for every pair of Node
wrappers a and b, a == b holds exactly when a and b wrap the same native
handle, even when a and b are distinct wrapper objects; equality is
reference-independent and is an equivalence relation on wrappers
(reflexive, symmetric, transitive). -/
theorem c10_node_equality (st : St) (a b c : Nat) :
    (Node.beq st a b = true ↔ Node.node_ptr st a = Node.node_ptr st b) ∧
    Node.beq st a a = true ∧
    Node.beq st a b = Node.beq st b a ∧
    (Node.beq st a b = true → Node.beq st b c = true →
      Node.beq st a c = true) := by
  refine ⟨by simp [Node.beq], by simp [Node.beq], ?_, ?_⟩
  · by_cases h : Node.node_ptr st a = Node.node_ptr st b
    · simp [Node.beq, h]
    · simp [Node.beq, h, Ne.symm h]
  · intro h1 h2
    simp only [Node.beq, beq_iff_eq] at h1 h2 ⊢
    exact h1.trans h2

/-- C10 witness: the equality contract evaluated on a concrete state in
which wrappers 0 and 1 are distinct objects sharing handle 5. -/
theorem c10_node_equality_witness :
    (Node.beq ⟨[(0, ⟨5, false⟩), (1, ⟨5, false⟩)], 2, [], []⟩ 0 1 = true ↔
      Node.node_ptr ⟨[(0, ⟨5, false⟩), (1, ⟨5, false⟩)], 2, [], []⟩ 0 =
      Node.node_ptr ⟨[(0, ⟨5, false⟩), (1, ⟨5, false⟩)], 2, [], []⟩ 1) ∧
    Node.beq ⟨[(0, ⟨5, false⟩), (1, ⟨5, false⟩)], 2, [], []⟩ 0 0 = true ∧
    Node.beq ⟨[(0, ⟨5, false⟩), (1, ⟨5, false⟩)], 2, [], []⟩ 0 1 =
      Node.beq ⟨[(0, ⟨5, false⟩), (1, ⟨5, false⟩)], 2, [], []⟩ 1 0 ∧
    (Node.beq ⟨[(0, ⟨5, false⟩), (1, ⟨5, false⟩)], 2, [], []⟩ 0 1 = true →
     Node.beq ⟨[(0, ⟨5, false⟩), (1, ⟨5, false⟩)], 2, [], []⟩ 1 1 = true →
     Node.beq ⟨[(0, ⟨5, false⟩), (1, ⟨5, false⟩)], 2, [], []⟩ 0 1 = true) :=
  c10_node_equality ⟨[(0, ⟨5, false⟩), (1, ⟨5, false⟩)], 2, [], []⟩ 0 1 1

/-- C5: parse result discrimination — parse_handler installs the
diagnostic callback, runs the foreign parser, uninstalls the callback,
and returns an error exactly when the parser returned the null handle;
the error is the ordered collected diagnostic list, and on a non-null
handle it returns Ok with a Document wrapping the handle, retaining the
diagnostics, and owning an empty identity map. -/
theorem c5_parse_result_discrimination (parsed : Nat)
    (collected : List XmlError) :
    Document.parse_handler parsed collected =
      ([FFICall.xmlResetLastError, FFICall.xmlSetStructuredErrorFunc true,
        FFICall.foreignParse, FFICall.xmlSetStructuredErrorFunc false] ++
          (if parsed = 0 then [FFICall.xmlFreeDoc 0] else []),
       if parsed = 0 then Except.error collected
       else Except.ok { doc_ptr := parsed, errors := collected, nodes := [] }) := by
  by_cases h : parsed = 0 <;>
    simp [Document.parse_handler, Document.handle_result_ptrs, h]

/-- C7 counterexample: Document::to_string (non-pretty, receiver buffer
7) lets the foreign dump allocate the receiver buffer but its exit path
performs no foreign call that frees it (the pointer is mem::forget-ten),
refuting the claim that every serialize call releases the buffer it
allocated on every exit path. -/
theorem c7_counterexample :
    ((Document.to_string_calls false 7).any fun c => allocsBuf c 7) = true ∧
    ((Document.to_string_calls false 7).any fun c => freesBuf c 7) = false := by
  decide

/-- C7 amended: Node-level serialize allocates a scratch buffer and
releases it on its return path, but Document-level to_string lets the
dump allocate the receiver buffer and never releases it. -/
theorem c7_amended (format : Bool) (buf : Nat) :
    ((Node.to_string_calls format buf).any fun c => allocsBuf c buf) = true ∧
    ((Node.to_string_calls format buf).any fun c => freesBuf c buf) = true ∧
    ((Document.to_string_calls format buf).any fun c => allocsBuf c buf) = true ∧
    ((Document.to_string_calls format buf).any fun c => freesBuf c buf) = false := by
  cases format <;>
    simp [Node.to_string_calls, Document.to_string_calls, allocsBuf, freesBuf]

/-- C9: unlink is idempotent — a second unlink of the same wrapper (the
node's foreign type tag unchanged by detaching) leaves the state exactly
as after the first: the flag stays set, no further identity-map removal
happens, and no further foreign detach call is emitted. -/
theorem c9_unlink_idempotent (st : St) (i : Nat) (ty : Option NodeType) :
    Node.unlink (Node.unlink st i ty) i ty = Node.unlink st i ty := by
  rcases hc : lookupA st.heap i with _ | cell
  · have h1 : Node.unlink st i ty = st := by simp [Node.unlink, hc]
    rw [h1, h1]
  · by_cases hg : ty ≠ some NodeType.DocumentNode ∧
        ty ≠ some NodeType.DocumentFragNode ∧ cell.unlinked = false
    · have h1 : Node.unlink st i ty =
          { st with heap := insertA st.heap i { cell with unlinked := true },
                    nodes := removeA st.nodes cell.node_ptr,
                    calls := st.calls ++ [FFICall.xmlUnlinkNode cell.node_ptr] } := by
        rw [Node.unlink, hc]
        exact if_pos hg
      rw [h1]
      have h2 : lookupA (insertA st.heap i { cell with unlinked := true }) i =
          some { cell with unlinked := true } := lookupA_insertA_self _ _ _
      rw [Node.unlink]
      simp [h2]
    · have h1 : Node.unlink st i ty = st := by
        rw [Node.unlink, hc]
        exact if_neg hg
      rw [h1, h1]

/-- Helper: the result of a non-null ptr_as_option resolution, written
out as an explicit state. -/
theorem ptr_as_option_eq (st : St) (p : Nat) (hp : p ≠ 0) :
    Node.ptr_as_option st p =
      ({ st with heap := insertA st.heap st.nextId ⟨p, false⟩,
                 nextId := st.nextId + 1,
                 nodes := insertA st.nodes p st.nextId }, some st.nextId) := by
  simp [Node.ptr_as_option, Node.wrap, hp]

/-- C1 counterexample: starting from an empty document state, resolving
the same non-null handle 5 twice through ptr_as_option yields wrapper
object 0 the first time and wrapper object 1 the second time — two
equal-but-distinct wrappers, not one shared object — refuting the claim
that two lookup paths reaching the same handle return the same
(reference-identical) wrapper. -/
theorem c1_counterexample :
    (Node.ptr_as_option ⟨[], 0, [], []⟩ 5).snd = some 0 ∧
    (Node.ptr_as_option (Node.ptr_as_option ⟨[], 0, [], []⟩ 5).fst 5).snd =
      some 1 ∧
    (0 : Nat) ≠ 1 ∧
    Node.beq (Node.ptr_as_option (Node.ptr_as_option ⟨[], 0, [], []⟩ 5).fst 5).fst
      0 1 = true := by
  decide

/-- C1 amended: resolution is create-and-overwrite, not lookup-or-create
— every resolution of a non-null handle allocates a brand-new wrapper
object and overwrites the identity-map entry for that handle; two
resolutions of the same handle yield wrappers that are equal by handle
comparison but are distinct objects, and the map retains only the most
recent one. -/
theorem c1_amended (st : St) (p : Nat) (hp : p ≠ 0) :
    (Node.ptr_as_option st p).snd = some st.nextId ∧
    (Node.ptr_as_option (Node.ptr_as_option st p).fst p).snd =
      some (st.nextId + 1) ∧
    st.nextId ≠ st.nextId + 1 ∧
    Node.beq (Node.ptr_as_option (Node.ptr_as_option st p).fst p).fst
      st.nextId (st.nextId + 1) = true ∧
    lookupA (Node.ptr_as_option (Node.ptr_as_option st p).fst p).fst.nodes p =
      some (st.nextId + 1) := by
  rw [ptr_as_option_eq st p hp]
  rw [ptr_as_option_eq _ p hp]
  refine ⟨rfl, rfl, by omega, ?_, ?_⟩
  · have h1 : lookupA
        (insertA (insertA st.heap st.nextId ⟨p, false⟩) (st.nextId + 1)
          ⟨p, false⟩) (st.nextId + 1) = some ⟨p, false⟩ :=
      lookupA_insertA_self _ _ _
    have h2 : lookupA
        (insertA (insertA st.heap st.nextId ⟨p, false⟩) (st.nextId + 1)
          ⟨p, false⟩) st.nextId = some ⟨p, false⟩ := by
      rw [lookupA_insertA_ne _ _ _ _ (by omega)]
      exact lookupA_insertA_self _ _ _
    simp [Node.beq, Node.node_ptr, h1, h2]
  · exact lookupA_insertA_self _ _ _

/-- C1 amended witness: the amended behaviour evaluated from the empty
state at handle 5. -/
theorem c1_amended_witness :
    (5 : Nat) ≠ 0 ∧
    ((Node.ptr_as_option ⟨[], 0, [], []⟩ 5).snd = some 0 ∧
     (Node.ptr_as_option (Node.ptr_as_option ⟨[], 0, [], []⟩ 5).fst 5).snd =
       some 1 ∧
     (0 : Nat) ≠ 0 + 1 ∧
     Node.beq (Node.ptr_as_option (Node.ptr_as_option ⟨[], 0, [], []⟩ 5).fst 5).fst
       0 (0 + 1) = true ∧
     lookupA
       (Node.ptr_as_option (Node.ptr_as_option ⟨[], 0, [], []⟩ 5).fst 5).fst.nodes
       5 = some (0 + 1)) :=
  ⟨by decide, c1_amended ⟨[], 0, [], []⟩ 5 (by decide)⟩

/-- C2 counterexample: self is wrapper 1 (handle 3), child is wrapper 0
(handle 7) with its unlinked flag set (previously detached); the foreign
xmlAddChild succeeds returning handle 7.  add_child returns Ok with a
brand-new wrapper 2, but the child wrapper 0 still has unlinked = true —
its destructor would still call xmlFreeNode — refuting the claim that a
successful add_child transitions the child wrapper to Linked (clearing
the detached flag). -/
theorem c2_counterexample :
    (Node.add_child ⟨[(0, ⟨7, true⟩), (1, ⟨3, false⟩)], 2, [], []⟩ 1 0 7).snd =
      Except.ok 2 ∧
    lookupA
      (Node.add_child ⟨[(0, ⟨7, true⟩), (1, ⟨3, false⟩)], 2, [], []⟩ 1 0 7).fst.heap
      0 = some ⟨7, true⟩ ∧
    Node.drop_calls ⟨7, true⟩ = [FFICall.xmlFreeNode 7] :=
  ⟨rfl, by decide, rfl⟩

/-- C2 amended: a successful add_child (non-null foreign result) invokes
xmlAddChild on the two handles, returns Ok with a brand-new wrapper that
it registers in the identity map under the returned handle with its own
linked (unlinked = false) state; the passed child wrapper's cell —
including any set detached flag — is left untouched.  When the native
call returns null, add_child returns Err and neither the heap of wrapper
cells nor the identity map is mutated. -/
theorem c2_amended (st : St) (self child ret : Nat)
    (hchild : child < st.nextId) :
    (ret = 0 →
      (Node.add_child st self child ret).snd = Except.error () ∧
      (Node.add_child st self child ret).fst.heap = st.heap ∧
      (Node.add_child st self child ret).fst.nodes = st.nodes) ∧
    (ret ≠ 0 →
      (Node.add_child st self child ret).snd = Except.ok st.nextId ∧
      lookupA (Node.add_child st self child ret).fst.heap st.nextId =
        some ⟨ret, false⟩ ∧
      lookupA (Node.add_child st self child ret).fst.nodes ret =
        some st.nextId ∧
      lookupA (Node.add_child st self child ret).fst.heap child =
        lookupA st.heap child ∧
      (Node.add_child st self child ret).fst.calls =
        st.calls ++ [FFICall.xmlAddChild (Node.node_ptr st self)
          (Node.node_ptr st child)]) := by
  constructor
  · intro h0
    subst h0
    refine ⟨rfl, rfl, rfl⟩
  · intro hne
    have hstep : Node.add_child st self child ret =
        ({ st with
            heap := insertA st.heap st.nextId ⟨ret, false⟩,
            nextId := st.nextId + 1,
            nodes := insertA st.nodes ret st.nextId,
            calls := st.calls ++ [FFICall.xmlAddChild (Node.node_ptr st self)
              (Node.node_ptr st child)] },
         Except.ok st.nextId) := by
      simp [Node.add_child, Node.ptr_as_result, Node.wrap, hne]
    rw [hstep]
    refine ⟨rfl, lookupA_insertA_self _ _ _, lookupA_insertA_self _ _ _,
      lookupA_insertA_ne _ _ _ _ (by omega), rfl⟩

/-- C2 amended witness: the amended contract evaluated at a concrete
state (one dangling-free wrapper id 0 below nextId 1) with foreign
return value 7. -/
theorem c2_amended_witness :
    (0 : Nat) < 1 ∧
    (((7 : Nat) = 0 →
       (Node.add_child ⟨[], 1, [], []⟩ 0 0 7).snd = Except.error () ∧
       (Node.add_child ⟨[], 1, [], []⟩ 0 0 7).fst.heap = [] ∧
       (Node.add_child ⟨[], 1, [], []⟩ 0 0 7).fst.nodes = []) ∧
     ((7 : Nat) ≠ 0 →
       (Node.add_child ⟨[], 1, [], []⟩ 0 0 7).snd = Except.ok 1 ∧
       lookupA (Node.add_child ⟨[], 1, [], []⟩ 0 0 7).fst.heap 1 =
         some ⟨7, false⟩ ∧
       lookupA (Node.add_child ⟨[], 1, [], []⟩ 0 0 7).fst.nodes 7 = some 1 ∧
       lookupA (Node.add_child ⟨[], 1, [], []⟩ 0 0 7).fst.heap 0 =
         lookupA [] 0 ∧
       (Node.add_child ⟨[], 1, [], []⟩ 0 0 7).fst.calls =
         [] ++ [FFICall.xmlAddChild (Node.node_ptr ⟨[], 1, [], []⟩ 0)
           (Node.node_ptr ⟨[], 1, [], []⟩ 0)])) :=
  ⟨by decide, c2_amended ⟨[], 1, [], []⟩ 0 0 7 (by decide)⟩

/-- C3 counterexample: parsing the 0-free input byte [60] with the
foreign parser returning the null handle — the trace of foreign calls
made by parse contains xmlFreeDoc applied to the null handle, refuting
the claim that parse never invokes the native document-free primitive on
that null handle. -/
theorem c3_counterexample :
    FFICall.xmlFreeDoc 0 ∈ (Document.parse_string [60] 0 []).fst := by
  decide

/-- C3 amended: when the foreign parser returns a null document handle,
parse does invoke xmlFreeDoc on that null handle (exactly once, relying
on the foreign free being a no-op on null) and returns the collected
diagnostics as the error. -/
theorem c3_amended (bytes : List Nat) (collected : List XmlError)
    (h : ¬ 0 ∈ bytes) :
    Document.parse_string bytes 0 collected =
      ([FFICall.xmlResetLastError, FFICall.xmlSetStructuredErrorFunc true,
        FFICall.foreignParse, FFICall.xmlSetStructuredErrorFunc false,
        FFICall.xmlFreeDoc 0],
       ParseOutcome.completed (Except.error collected)) := by
  simp [Document.parse_string, cstring_new, h, Document.parse_handler,
    Document.handle_result_ptrs]

/-- C3 amended witness: the amended behaviour at input [60] with no
collected diagnostics. -/
theorem c3_amended_witness :
    ¬ (0 : Nat) ∈ [60] ∧
    Document.parse_string [60] 0 [] =
      ([FFICall.xmlResetLastError, FFICall.xmlSetStructuredErrorFunc true,
        FFICall.foreignParse, FFICall.xmlSetStructuredErrorFunc false,
        FFICall.xmlFreeDoc 0],
       ParseOutcome.completed (Except.error [])) :=
  ⟨by decide, c3_amended [60] [] (by decide)⟩

/-- C4 counterexample: on the input bytes [60, 0, 62] (an embedded
string-termination byte), parse_string makes no foreign call but its
outcome is a panic — the .unwrap() on the failed CString conversion — not
a typed InvalidInputError result, refuting the claim that such inputs
surface as a typed error and never as a process abort. -/
theorem c4_counterexample :
    Document.parse_string [60, 0, 62] 1 [] = ([], ParseOutcome.panicked) :=
  rfl

/-- C4 amended: for every input containing an embedded 0 byte, parse
rejects the input before any call into the foreign layer, but it does so
by panicking (aborting) in the CString conversion, not by returning a
typed error value. -/
theorem c4_amended (bytes : List Nat) (parsed : Nat)
    (collected : List XmlError) (h : (0 : Nat) ∈ bytes) :
    Document.parse_string bytes parsed collected =
      ([], ParseOutcome.panicked) := by
  simp [Document.parse_string, cstring_new, h]

/-- C4 amended witness: the amended behaviour at the concrete input
[60, 0, 62]. -/
theorem c4_amended_witness :
    (0 : Nat) ∈ [60, 0, 62] ∧
    Document.parse_string [60, 0, 62] 1 [] = ([], ParseOutcome.panicked) :=
  ⟨by decide, c4_amended [60, 0, 62] 1 [] (by decide)⟩

/-- C6: unlink contract — for a wrapper whose foreign type decodes to
document or document-fragment, unlink is a no-op; for every other type,
when the wrapper is not already detached, unlink in one step sets the
unlinked flag on the wrapper's cell, removes the node's handle from the
document's identity map, and emits the foreign xmlUnlinkNode call. -/
theorem c6_unlink_contract (st : St) (i : Nat) (ty : Option NodeType)
    (cell : NCell) (hc : lookupA st.heap i = some cell) :
    ((ty = some NodeType.DocumentNode ∨ ty = some NodeType.DocumentFragNode) →
      Node.unlink st i ty = st) ∧
    (ty ≠ some NodeType.DocumentNode → ty ≠ some NodeType.DocumentFragNode →
      cell.unlinked = false →
      Node.unlink st i ty =
        { st with heap := insertA st.heap i { cell with unlinked := true },
                  nodes := removeA st.nodes cell.node_ptr,
                  calls := st.calls ++ [FFICall.xmlUnlinkNode cell.node_ptr] }) := by
  constructor
  · intro hdoc
    rw [Node.unlink, hc]
    apply if_neg
    rintro ⟨h1, h2, _⟩
    rcases hdoc with h | h
    · exact h1 h
    · exact h2 h
  · intro h1 h2 h3
    rw [Node.unlink, hc]
    exact if_pos ⟨h1, h2, h3⟩

/-- C6 witness: the unlink contract evaluated on a concrete linked
element wrapper (id 0, handle 5, registered in the map). -/
theorem c6_unlink_contract_witness :
    lookupA [(0, (⟨5, false⟩ : NCell))] 0 = some ⟨5, false⟩ ∧
    (((some NodeType.ElementNode = some NodeType.DocumentNode ∨
       some NodeType.ElementNode = some NodeType.DocumentFragNode) →
        Node.unlink ⟨[(0, ⟨5, false⟩)], 1, [(5, 0)], []⟩ 0
          (some NodeType.ElementNode) =
          ⟨[(0, ⟨5, false⟩)], 1, [(5, 0)], []⟩) ∧
     (some NodeType.ElementNode ≠ some NodeType.DocumentNode →
      some NodeType.ElementNode ≠ some NodeType.DocumentFragNode →
      (⟨5, false⟩ : NCell).unlinked = false →
      Node.unlink ⟨[(0, ⟨5, false⟩)], 1, [(5, 0)], []⟩ 0
        (some NodeType.ElementNode) =
        { heap := insertA [(0, ⟨5, false⟩)] 0 ⟨5, true⟩, nextId := 1,
          nodes := removeA [(5, 0)] 5,
          calls := [] ++ [FFICall.xmlUnlinkNode 5] })) :=
  ⟨by decide,
   c6_unlink_contract ⟨[(0, ⟨5, false⟩)], 1, [(5, 0)], []⟩ 0
     (some NodeType.ElementNode) ⟨5, false⟩ (by decide)⟩
